import Mathlib

/-
Verification of the SaaS starter backend (src/main.py, src/schemas.py):
record schemas, the document store, and the request handlers
(registration, login, blog listing/creation, contact submission,
health diagnostics).

Machine integers do not occur; timestamps are modelled as opaque Nat
values passed into the handler in place of datetime.utcnow().
-/

/-! ### Python string primitives -/

/-- Model of Python `str.lower()` (as used on emails and titles in main.py):
character-wise ASCII case mapping. -/
def pyLower (s : String) : String := ⟨s.data.map Char.toLower⟩

/-- Model of Python slicing `s[:n]`: the first `n` characters of `s`. -/
def pyTake (s : String) (n : Nat) : String := ⟨s.data.take n⟩

/-- Model of Python `str.strip()` (as used on the title in main.py): drop
whitespace characters from both ends. -/
def pyStrip (s : String) : String :=
  ⟨(((s.data.dropWhile Char.isWhitespace).reverse.dropWhile Char.isWhitespace).reverse)⟩

/-- Model of Python `str.replace(a, b)` for a one-character pattern and
replacement, as used in main.py (`.replace(" ", "-")`): substitute every
occurrence of the character `a` by `b`. -/
def pyReplaceChar (s : String) (a b : Char) : String :=
  ⟨s.data.map (fun c => if c = a then b else c)⟩

/-! ### Record schemas (src/schemas.py) -/

/-- schemas.py `User`: users collection schema, with the pydantic field
defaults (`role="user"`, `is_active=True`, `avatar_url=None`). -/
structure User where
  name : String
  email : String
  password_hash : String
  avatar_url : Option String := none
  role : String := "user"
  is_active : Bool := true
  deriving DecidableEq

/-- schemas.py `BlogPost`: blog posts collection schema with defaults
(`excerpt=None`, `cover_image=None`, `tags=[]`, `status="published"`,
`published_at=None`). -/
structure BlogPost where
  title : String
  slug : String
  excerpt : Option String := none
  content : String
  author_name : String
  cover_image : Option String := none
  tags : List String := []
  status : String := "published"
  published_at : Option Nat := none
  deriving DecidableEq

/-- schemas.py `ContactMessage`: contact messages collection schema with
default `status="new"`. -/
structure ContactMessage where
  name : String
  email : String
  company : Option String := none
  message : String
  status : String := "new"
  deriving DecidableEq

/-! ### Document store adapter (database.py, not in src/) -/

/-- Modelled from the spec: database.py (the document store adapter) is not
under src/. Spec 4.1: `create` assigns the record to the named collection and
returns an opaque unique identifier. A stored document pairs the generated
identifier with the record. -/
structure Stored (α : Type) where
  oid : Nat
  doc : α
  deriving DecidableEq

/-- Modelled from the spec: the persistent store, holding the three
collections ("user", "blogpost", "contactmessage") in storage (insertion)
order, together with the next generated identifier. -/
structure Store where
  users : List (Stored User)
  blogposts : List (Stored BlogPost)
  contactmessages : List (Stored ContactMessage)
  nextId : Nat
  deriving DecidableEq

/-- Modelled from the spec: `create_document` on the "user" collection —
durably persists one record (appended in storage order) and returns the
generated id; no uniqueness or referential checks at this layer. -/
def create_document_user (s : Store) (u : User) : Nat × Store :=
  (s.nextId, { s with users := s.users ++ [⟨s.nextId, u⟩], nextId := s.nextId + 1 })

/-- Modelled from the spec: `create_document` on the "blogpost" collection. -/
def create_document_blogpost (s : Store) (p : BlogPost) : Nat × Store :=
  (s.nextId, { s with blogposts := s.blogposts ++ [⟨s.nextId, p⟩], nextId := s.nextId + 1 })

/-- Modelled from the spec: `create_document` on the "contactmessage"
collection. -/
def create_document_contactmessage (s : Store) (m : ContactMessage) : Nat × Store :=
  (s.nextId, { s with contactmessages := s.contactmessages ++ [⟨s.nextId, m⟩], nextId := s.nextId + 1 })

/-- Modelled from the spec: `get_documents` on the "user" collection with an
equality filter on the email field — matching records in storage order,
truncated to the result-count cap. -/
def get_documents_user_by_email (s : Store) (email : String) (limit : Nat) :
    List (Stored User) :=
  (s.users.filter (fun d => d.doc.email == email)).take limit

/-- Modelled from the spec: `get_documents` on the "blogpost" collection with
an equality filter on the status field and no limit. -/
def get_documents_blogpost_by_status (s : Store) (status : String) :
    List (Stored BlogPost) :=
  s.blogposts.filter (fun d => d.doc.status == status)

/-! ### Request / response shapes (src/main.py) -/

/-- main.py `HTTPException(status_code, detail)`. -/
structure HTTPException where
  status_code : Nat
  detail : String
  deriving DecidableEq

/-- main.py `RegisterPayload`. -/
structure RegisterPayload where
  name : String
  email : String
  password : String
  deriving DecidableEq

/-- Response of `register_user`: `{"id", "name", "email"}`. -/
structure RegisterResponse where
  id : Nat
  name : String
  email : String
  deriving DecidableEq

/-- main.py `LoginPayload`. -/
structure LoginPayload where
  email : String
  password : String
  deriving DecidableEq

/-- The `"user"` object inside the login response. -/
structure UserOut where
  name : String
  email : String
  deriving DecidableEq

/-- Response of `login_user`: `{"token", "user"}`. -/
structure LoginResponse where
  token : String
  user : UserOut
  deriving DecidableEq

/-- main.py `BlogCreatePayload` (`tags` optional). -/
structure BlogCreatePayload where
  title : String
  content : String
  author_name : String
  tags : Option (List String) := none
  deriving DecidableEq

/-- Response of `create_post`: `{"id", "slug"}`. -/
structure CreatePostResponse where
  id : Nat
  slug : String
  deriving DecidableEq

/-- The lightweight view produced per post by `list_posts`. -/
structure PostView where
  id : String
  title : String
  slug : String
  excerpt : Option String
  author_name : String
  cover_image : Option String
  tags : List String
  published_at : Option Nat
  deriving DecidableEq

/-- main.py `ContactPayload` (`company` optional). -/
structure ContactPayload where
  name : String
  email : String
  company : Option String := none
  message : String
  deriving DecidableEq

/-- Response of `submit_contact`: `{"id", "status"}`. -/
structure ContactResponse where
  id : Nat
  status : String
  deriving DecidableEq

/-! ### Handlers (src/main.py) -/

/-- main.py `register_user` (POST /api/auth/register): lowercase the email,
look up the user collection by email with limit 1, fail with 400 on a match,
otherwise build the User record (tagged placeholder password hash, defaults)
and insert it. -/
def register_user (s : Store) (payload : RegisterPayload) :
    Except HTTPException (RegisterResponse × Store) :=
  let existing := get_documents_user_by_email s (pyLower payload.email) 1
  if !existing.isEmpty then
    .error { status_code := 400, detail := "Email already registered" }
  else
    let user : User := { name := payload.name, email := pyLower payload.email,
                         password_hash := "sha256:" ++ payload.password }
    let r := create_document_user s user
    .ok ({ id := r.1, name := user.name, email := user.email }, r.2)

/-- main.py `login_user` (POST /api/auth/login): lowercase the email, look up
with limit 1; 401 if no document or the stored hash differs from
"sha256:" + password; otherwise return the fixed demo token and the stored
name/email. -/
def login_user (s : Store) (payload : LoginPayload) :
    Except HTTPException LoginResponse :=
  let user_docs := get_documents_user_by_email s (pyLower payload.email) 1
  match user_docs with
  | [] => .error { status_code := 401, detail := "Invalid credentials" }
  | user :: _ =>
    if user.doc.password_hash ≠ "sha256:" ++ payload.password then
      .error { status_code := 401, detail := "Invalid credentials" }
    else
      .ok { token := "demo-token",
            user := { name := user.doc.name, email := user.doc.email } }

/-- main.py `list_posts`: the per-post projection into the lightweight view
(`_id` stringified). -/
def postView (p : Stored BlogPost) : PostView :=
  { id := toString p.oid, title := p.doc.title, slug := p.doc.slug,
    excerpt := p.doc.excerpt, author_name := p.doc.author_name,
    cover_image := p.doc.cover_image, tags := p.doc.tags,
    published_at := p.doc.published_at }

/-- main.py `list_posts` (GET /api/blog): fetch all posts with
status == "published" (no limit) and map each to the lightweight view. -/
def list_posts (s : Store) : List PostView :=
  (get_documents_blogpost_by_status s "published").map postView

/-- main.py `create_post` (POST /api/blog): slug from the title (lower, strip,
spaces to hyphens), excerpt truncated at 140 characters plus "...",
status "published", published_at set to the current time (passed as `now`);
`payload.tags or []` maps an absent or empty tag list to []. -/
def create_post (s : Store) (payload : BlogCreatePayload) (now : Nat) :
    CreatePostResponse × Store :=
  let slug := pyReplaceChar (pyStrip (pyLower payload.title)) ' ' '-' 
  let post : BlogPost :=
    { title := payload.title,
      slug := slug,
      excerpt := some (if payload.content.length > 140
                       then pyTake payload.content 140 ++ "..."
                       else payload.content),
      content := payload.content,
      author_name := payload.author_name,
      tags := match payload.tags with
              | some ts => if ts.isEmpty then [] else ts
              | none => [],
      status := "published",
      published_at := some now }
  let r := create_document_blogpost s post
  ({ id := r.1, slug := slug }, r.2)

/-- main.py `submit_contact` (POST /api/contact): build the ContactMessage
(status defaults to "new"), insert it, acknowledge with status "received". -/
def submit_contact (s : Store) (payload : ContactPayload) :
    ContactResponse × Store :=
  let entry : ContactMessage := { name := payload.name, email := payload.email,
                                  company := payload.company,
                                  message := payload.message }
  let r := create_document_contactmessage s entry
  ({ id := r.1, status := "received" }, r.2)

/-- The diagnostic response of main.py `test_database`. -/
structure TestResponse where
  backend : String
  database : String
  database_url : Option String
  database_name : Option String
  connection_status : String
  collections : List String
  deriving DecidableEq

/-- main.py `test_database` (GET /test). Modelled from the spec where it
touches database.py (not under src/): `dbPresent` stands for `db is not None`
and `listResult` for the outcome of `db.list_collection_names()` (an
exception is an `.error` carrying the exception text `str(e)`). The handler
caps the collection list at 10 names and reports a listing failure inline as
the error text truncated to 50 characters. -/
def test_database (dbPresent : Bool) (urlSet nameSet : Bool)
    (listResult : Except String (List String)) : TestResponse :=
  if dbPresent then
    match listResult with
    | .ok collections =>
      { backend := "✅ Running",
        database := "✅ Connected & Working",
        database_url := some (if urlSet then "✅ Set" else "❌ Not Set"),
        database_name := some (if nameSet then "✅ Set" else "❌ Not Set"),
        connection_status := "Connected",
        collections := collections.take 10 }
    | .error e =>
      { backend := "✅ Running",
        database := "⚠️  Connected but Error: " ++ pyTake e 50,
        database_url := some (if urlSet then "✅ Set" else "❌ Not Set"),
        database_name := some (if nameSet then "✅ Set" else "❌ Not Set"),
        connection_status := "Connected",
        collections := [] }
  else
    { backend := "✅ Running",
      database := "⚠️  Available but not initialized",
      database_url := none,
      database_name := none,
      connection_status := "Not Connected",
      collections := [] }

/-! ### Helper lemmas -/

theorem char_isUpper_toNat {c : Char} (h : c.isUpper = true) :
    65 ≤ c.toNat ∧ c.toNat ≤ 90 := by
  simp only [Char.isUpper, ge_iff_le, Bool.and_eq_true, decide_eq_true_eq] at h
  obtain ⟨h1, h2⟩ := h
  exact ⟨UInt32.le_def.mp h1, UInt32.le_def.mp h2⟩

theorem char_toNat_ofNat_of_lt {n : Nat} (h : n < 55296) : (Char.ofNat n).toNat = n := by
  have hv : Nat.isValidChar n := Or.inl h
  simp [Char.ofNat, hv, Char.ofNatAux, Char.toNat, UInt32.toNat]

theorem char_toLower_ne_of_isUpper {c : Char} (h : c.isUpper = true) :
    Char.toLower c ≠ c := by
  obtain ⟨h1, h2⟩ := char_isUpper_toNat h
  intro hEq
  have hlow : Char.toLower c = Char.ofNat (c.toNat + 32) := by
    simp [Char.toLower, h1, h2]
  have hN : (Char.ofNat (c.toNat + 32)).toNat = c.toNat + 32 :=
    char_toNat_ofNat_of_lt (by omega)
  rw [← hlow, hEq] at hN
  omega

theorem list_map_ne_self {α : Type} {f : α → α} {l : List α} {c : α}
    (hc : c ∈ l) (hne : f c ≠ c) : l.map f ≠ l := by
  induction l with
  | nil => cases hc
  | cons a t ih =>
    intro hEq
    rw [List.map_cons, List.cons.injEq] at hEq
    rcases List.mem_cons.mp hc with rfl | hct
    · exact hne hEq.1
    · exact ih hct hEq.2

theorem pyLower_ne_of_exists_upper {s : String} (h : ∃ c ∈ s.data, c.isUpper = true) :
    pyLower s ≠ s := by
  obtain ⟨c, hc, hup⟩ := h
  intro hEq
  have hdata : s.data.map Char.toLower = s.data := congrArg String.data hEq
  exact list_map_ne_self hc (char_toLower_ne_of_isUpper hup) hdata

theorem get_user_nil_iff (s : Store) (e : String) :
    get_documents_user_by_email s e 1 = [] ↔ ∀ d ∈ s.users, d.doc.email ≠ e := by
  unfold get_documents_user_by_email
  rw [List.take_eq_nil_iff]
  simp

theorem register_user_eq_ok (s : Store) (p : RegisterPayload)
    (h : get_documents_user_by_email s (pyLower p.email) 1 = []) :
    register_user s p = .ok
      ({ id := s.nextId, name := p.name, email := pyLower p.email },
       { s with
         users := s.users ++ [⟨s.nextId,
           { name := p.name, email := pyLower p.email,
             password_hash := "sha256:" ++ p.password,
             avatar_url := none, role := "user", is_active := true }⟩],
         nextId := s.nextId + 1 }) := by
  unfold register_user
  rw [h]
  rfl

theorem register_user_eq_error (s : Store) (p : RegisterPayload)
    (h : get_documents_user_by_email s (pyLower p.email) 1 ≠ []) :
    register_user s p = .error { status_code := 400, detail := "Email already registered" } := by
  cases hE : get_documents_user_by_email s (pyLower p.email) 1 with
  | nil => exact absurd hE h
  | cons d ds =>
    unfold register_user
    rw [hE]
    rfl

/-! ### Concrete fixtures -/

/-- A registration payload with a mixed-case email. -/
def aliceReg : RegisterPayload :=
  { name := "Alice", email := "Alice@Example.com", password := "pw1" }

/-- The account record that registering `aliceReg` stores. -/
def aliceUser : User :=
  { name := "Alice", email := "alice@example.com", password_hash := "sha256:pw1" }

/-- The empty store. -/
def store0 : Store := { users := [], blogposts := [], contactmessages := [], nextId := 0 }

/-- The store after registering `aliceReg` into `store0`. -/
def store1 : Store :=
  { users := [⟨0, aliceUser⟩], blogposts := [], contactmessages := [], nextId := 1 }

/-! ### Claims -/

/-- C1: for every registration payload whose lowercased email already matches
an existing account record (looked up with limit 1), register_user fails with
the client error 400 "Email already registered" and inserts nothing (no new
store is produced); in particular, after any successful registration, a second
sequential registration with the same lowercased email yields the same
DuplicateEmail error. -/
theorem C1_register_duplicate_email (s : Store) (p : RegisterPayload)
    (h : ∃ d ∈ s.users, d.doc.email = pyLower p.email) :
    register_user s p = .error { status_code := 400, detail := "Email already registered" } ∧
    ∀ (s₀ : Store) (p₁ p₂ : RegisterPayload) (r : RegisterResponse) (s₁ : Store),
      register_user s₀ p₁ = .ok (r, s₁) → pyLower p₂.email = pyLower p₁.email →
      register_user s₁ p₂ = .error { status_code := 400, detail := "Email already registered" } := by
  constructor
  · apply register_user_eq_error
    rw [Ne, get_user_nil_iff]
    push_neg
    exact h
  · intro s₀ p₁ p₂ r s₁ hok heq
    by_cases hE : get_documents_user_by_email s₀ (pyLower p₁.email) 1 = []
    · rw [register_user_eq_ok s₀ p₁ hE] at hok
      injection hok with h2
      injection h2 with hr hs
      apply register_user_eq_error
      rw [Ne, get_user_nil_iff]
      push_neg
      refine ⟨⟨s₀.nextId,
        { name := p₁.name, email := pyLower p₁.email,
          password_hash := "sha256:" ++ p₁.password,
          avatar_url := none, role := "user", is_active := true }⟩, ?_, ?_⟩
      · rw [← hs]
        simp
      · rw [heq]
    · rw [register_user_eq_error s₀ p₁ hE] at hok
      exact Except.noConfusion hok

/-- Witness for C1: in a store already holding the account for
alice@example.com, registering Alice@Example.com again fails with 400
"Email already registered". -/
theorem C1_register_duplicate_email_witness :
    register_user store1 aliceReg =
      .error { status_code := 400, detail := "Email already registered" } :=
  (C1_register_duplicate_email store1 aliceReg (by decide)).1

/-- C2: for every registration payload whose lowercased email matches no
existing account, register_user builds the Account record with
password_hash = "sha256:" + password and the schema defaults (role "user",
is_active true, avatar_url absent), appends exactly that record to the user
collection, and returns the generated id together with the name and the
(lowercased) email. -/
theorem C2_register_fresh_email (s : Store) (p : RegisterPayload)
    (h : ∀ d ∈ s.users, d.doc.email ≠ pyLower p.email) :
    register_user s p = .ok
      ({ id := s.nextId, name := p.name, email := pyLower p.email },
       { s with
         users := s.users ++ [⟨s.nextId,
           { name := p.name, email := pyLower p.email,
             password_hash := "sha256:" ++ p.password,
             avatar_url := none, role := "user", is_active := true }⟩],
         nextId := s.nextId + 1 }) :=
  register_user_eq_ok s p ((get_user_nil_iff s _).mpr h)

/-- Witness for C2: registering Alice into the empty store succeeds and
stores exactly her account record. -/
theorem C2_register_fresh_email_witness :
    register_user store0 aliceReg = .ok
      ({ id := 0, name := "Alice", email := "alice@example.com" }, store1) := by
  have h := C2_register_fresh_email store0 aliceReg (by decide)
  rw [h]
  rfl

/-- C10: every successful registration returns the lowercased form of the
submitted email and echoes the name unchanged, the stored account carries the
lowercased email, and when the submitted email contains an uppercase
character the returned email differs from the submitted one. -/
theorem C10_register_email_lowercased (s : Store) (p : RegisterPayload)
    (r : RegisterResponse) (s' : Store)
    (h : register_user s p = .ok (r, s')) :
    r.email = pyLower p.email ∧ r.name = p.name ∧
    (∃ d ∈ s'.users, d.doc.email = pyLower p.email ∧ d.doc.name = p.name) ∧
    ((∃ c ∈ p.email.data, c.isUpper = true) → r.email ≠ p.email) := by
  by_cases hE : get_documents_user_by_email s (pyLower p.email) 1 = []
  · rw [register_user_eq_ok s p hE] at h
    injection h with h2
    injection h2 with hr hs
    refine ⟨by rw [← hr], by rw [← hr], ?_, ?_⟩
    · refine ⟨⟨s.nextId,
        { name := p.name, email := pyLower p.email,
          password_hash := "sha256:" ++ p.password,
          avatar_url := none, role := "user", is_active := true }⟩, ?_, rfl, rfl⟩
      rw [← hs]
      simp
    · intro hup
      rw [← hr]
      exact pyLower_ne_of_exists_upper hup
  · rw [register_user_eq_error s p hE] at h
    exact Except.noConfusion h

/-- Witness for C10 at Alice's mixed-case registration into the empty store. -/
theorem C10_register_email_lowercased_witness :
    ({ id := 0, name := "Alice", email := "alice@example.com" } : RegisterResponse).email =
        pyLower aliceReg.email ∧
    ({ id := 0, name := "Alice", email := "alice@example.com" } : RegisterResponse).name =
        aliceReg.name ∧
    (∃ d ∈ store1.users, d.doc.email = pyLower aliceReg.email ∧ d.doc.name = aliceReg.name) ∧
    ((∃ c ∈ aliceReg.email.data, c.isUpper = true) →
      ({ id := 0, name := "Alice", email := "alice@example.com" } : RegisterResponse).email ≠
        aliceReg.email) :=
  C10_register_email_lowercased store0 aliceReg _ store1
    (by rw [register_user_eq_ok store0 aliceReg rfl]; rfl)

theorem login_user_eq_nil (s : Store) (p : LoginPayload)
    (h : get_documents_user_by_email s (pyLower p.email) 1 = []) :
    login_user s p = .error { status_code := 401, detail := "Invalid credentials" } := by
  unfold login_user
  rw [h]

theorem login_user_eq_cons (s : Store) (p : LoginPayload) (d : Stored User)
    (ds : List (Stored User))
    (h : get_documents_user_by_email s (pyLower p.email) 1 = d :: ds) :
    login_user s p =
      if d.doc.password_hash ≠ "sha256:" ++ p.password then
        .error { status_code := 401, detail := "Invalid credentials" }
      else
        .ok { token := "demo-token",
              user := { name := d.doc.name, email := d.doc.email } } := by
  unfold login_user
  rw [h]

/-- C3: login fails with the authorization error 401 "Invalid credentials"
both when no account matches the lowercased email and when the first match's
stored password_hash differs from "sha256:" + password, and the error result
is the identical value in both cases. -/
theorem C3_login_invalid_credentials (s : Store) (p : LoginPayload) :
    ((∀ d ∈ s.users, d.doc.email ≠ pyLower p.email) →
      login_user s p = .error { status_code := 401, detail := "Invalid credentials" }) ∧
    (∀ (d : Stored User) (ds : List (Stored User)),
      get_documents_user_by_email s (pyLower p.email) 1 = d :: ds →
      d.doc.password_hash ≠ "sha256:" ++ p.password →
      login_user s p = .error { status_code := 401, detail := "Invalid credentials" }) := by
  constructor
  · intro h
    exact login_user_eq_nil s p ((get_user_nil_iff s _).mpr h)
  · intro d ds hE hpw
    rw [login_user_eq_cons s p d ds hE, if_pos hpw]

/-- Witness for C3: against the store holding only Alice's account, logging in
with an unknown email and logging in with Alice's email but a wrong password
produce the identical 401 "Invalid credentials" error. -/
theorem C3_login_invalid_credentials_witness :
    login_user store1 { email := "bob@example.com", password := "pw1" } =
      .error { status_code := 401, detail := "Invalid credentials" } ∧
    login_user store1 { email := "Alice@Example.com", password := "wrong" } =
      .error { status_code := 401, detail := "Invalid credentials" } :=
  ⟨(C3_login_invalid_credentials store1 _).1 (by decide),
   (C3_login_invalid_credentials store1 _).2 ⟨0, aliceUser⟩ [] (by decide) (by decide)⟩

/-- C4: when the lowercased email matches a stored account whose
password_hash equals "sha256:" + password, login succeeds with the fixed
placeholder token "demo-token" and the account's stored name and email. -/
theorem C4_login_success (s : Store) (p : LoginPayload) (d : Stored User)
    (ds : List (Stored User))
    (hE : get_documents_user_by_email s (pyLower p.email) 1 = d :: ds)
    (hpw : d.doc.password_hash = "sha256:" ++ p.password) :
    login_user s p =
      .ok { token := "demo-token",
            user := { name := d.doc.name, email := d.doc.email } } := by
  rw [login_user_eq_cons s p d ds hE, if_neg (not_not_intro hpw)]

/-- Witness for C4: Alice logs in with the right password and gets the demo
token and her stored name/email. -/
theorem C4_login_success_witness :
    login_user store1 { email := "Alice@Example.com", password := "pw1" } =
      .ok { token := "demo-token",
            user := { name := aliceUser.name, email := aliceUser.email } } :=
  C4_login_success store1 _ ⟨0, aliceUser⟩ [] (by decide) (by decide)

theorem create_post_eq (s : Store) (p : BlogCreatePayload) (now : Nat) :
    create_post s p now =
      ({ id := s.nextId, slug := pyReplaceChar (pyStrip (pyLower p.title)) ' ' '-' },
       { s with
         blogposts := s.blogposts ++ [⟨s.nextId,
           { title := p.title,
             slug := pyReplaceChar (pyStrip (pyLower p.title)) ' ' '-',
             excerpt := some (if p.content.length > 140
                              then pyTake p.content 140 ++ "..."
                              else p.content),
             content := p.content,
             author_name := p.author_name,
             cover_image := none,
             tags := match p.tags with
                     | some ts => if ts.isEmpty then [] else ts
                     | none => [],
             status := "published",
             published_at := some now }⟩],
         nextId := s.nextId + 1 }) := rfl

/-- C5: the post stored by create_post has excerpt equal to the first 140
characters of the content followed by "..." when the content is longer than
140 characters (and that truncation has length exactly 140 and is a prefix of
the content), and excerpt equal to the content itself when the content has at
most 140 characters. -/
theorem C5_create_post_excerpt (s : Store) (p : BlogCreatePayload) (now : Nat) :
    ∃ post : BlogPost,
      (create_post s p now).2.blogposts = s.blogposts ++ [⟨s.nextId, post⟩] ∧
      (p.content.length > 140 →
        post.excerpt = some (pyTake p.content 140 ++ "...") ∧
        (pyTake p.content 140).length = 140 ∧
        (pyTake p.content 140).data <+: p.content.data) ∧
      (p.content.length ≤ 140 → post.excerpt = some p.content) := by
  refine ⟨_, by rw [create_post_eq], ?_, ?_⟩
  · intro h
    refine ⟨by rw [if_pos h], ?_, List.take_prefix 140 p.content.data⟩
    show (p.content.data.take 140).length = 140
    rw [List.length_take]
    have : 140 < p.content.data.length := h
    omega
  · intro h
    rw [if_neg (by omega)]

/-- Witness for C5 at a 150-character content. -/
theorem C5_create_post_excerpt_witness : ∃ post : BlogPost,
    (create_post store0
      { title := "Hello World", content := ⟨List.replicate 150 'a'⟩,
        author_name := "Alice" } 5).2.blogposts =
      store0.blogposts ++ [⟨store0.nextId, post⟩] ∧
    ((⟨List.replicate 150 'a'⟩ : String).length > 140 →
      post.excerpt = some (pyTake ⟨List.replicate 150 'a'⟩ 140 ++ "...") ∧
      (pyTake (⟨List.replicate 150 'a'⟩ : String) 140).length = 140 ∧
      (pyTake (⟨List.replicate 150 'a'⟩ : String) 140).data <+:
        (⟨List.replicate 150 'a'⟩ : String).data) ∧
    ((⟨List.replicate 150 'a'⟩ : String).length ≤ 140 → post.excerpt =
      some ⟨List.replicate 150 'a'⟩) :=
  C5_create_post_excerpt store0
    { title := "Hello World", content := ⟨List.replicate 150 'a'⟩,
      author_name := "Alice" } 5

/-- C6: the slug create_post returns equals the slug it stores, both are the
deterministic function of the title alone (lowercase, trim, spaces to
hyphens), and the title "Hello World" yields the slug "hello-world". -/
theorem C6_create_post_slug (s : Store) (p : BlogCreatePayload) (now : Nat) :
    (create_post s p now).1.slug = pyReplaceChar (pyStrip (pyLower p.title)) ' ' '-' ∧
    (∃ post : BlogPost,
      (create_post s p now).2.blogposts = s.blogposts ++ [⟨s.nextId, post⟩] ∧
      post.slug = (create_post s p now).1.slug) ∧
    (∀ (q : BlogCreatePayload) (s' : Store) (m : Nat), q.title = p.title →
      (create_post s' q m).1.slug = (create_post s p now).1.slug) ∧
    (pyReplaceChar (pyStrip (pyLower "Hello World")) ' ' '-' = "hello-world") := by
  refine ⟨rfl, ⟨_, by rw [create_post_eq], rfl⟩, ?_, by decide⟩
  intro q s' m hq
  rw [create_post_eq, create_post_eq]
  simp [hq]

/-- Witness for C6 at the title "Hello World". -/
theorem C6_create_post_slug_witness :
    (create_post store0
      { title := "Hello World", content := "c", author_name := "Alice" } 5).1.slug =
      pyReplaceChar (pyStrip (pyLower "Hello World")) ' ' '-' ∧
    (∃ post : BlogPost,
      (create_post store0
        { title := "Hello World", content := "c", author_name := "Alice" } 5).2.blogposts =
        store0.blogposts ++ [⟨store0.nextId, post⟩] ∧
      post.slug = (create_post store0
        { title := "Hello World", content := "c", author_name := "Alice" } 5).1.slug) ∧
    (∀ (q : BlogCreatePayload) (s' : Store) (m : Nat), q.title = "Hello World" →
      (create_post s' q m).1.slug = (create_post store0
        { title := "Hello World", content := "c", author_name := "Alice" } 5).1.slug) ∧
    (pyReplaceChar (pyStrip (pyLower "Hello World")) ' ' '-' = "hello-world") :=
  C6_create_post_slug store0
    { title := "Hello World", content := "c", author_name := "Alice" } 5

/-- C7: list_posts returns exactly the stored posts whose status is
"published" (no limit), each projected through postView, in storage order;
and the post stored by create_post (status "published") appears in the list
immediately after creation. -/
theorem C7_list_posts_published (s : Store) (p : BlogCreatePayload) (now : Nat) :
    list_posts s = (s.blogposts.filter (fun d => d.doc.status == "published")).map postView ∧
    ∃ d : Stored BlogPost, (create_post s p now).2.blogposts = s.blogposts ++ [d] ∧
      postView d ∈ list_posts (create_post s p now).2 := by
  refine ⟨rfl, _, by rw [create_post_eq], ?_⟩
  rw [create_post_eq]
  unfold list_posts get_documents_blogpost_by_status
  rw [List.filter_append, List.map_append]
  apply List.mem_append_right
  simp

/-- Witness for C7 at a concrete store, payload and timestamp. -/
theorem C7_list_posts_published_witness :
    list_posts store1 =
      (store1.blogposts.filter (fun d => d.doc.status == "published")).map postView ∧
    ∃ d : Stored BlogPost,
      (create_post store1
        { title := "Hello World", content := "c", author_name := "Alice" } 5).2.blogposts =
        store1.blogposts ++ [d] ∧
      postView d ∈ list_posts (create_post store1
        { title := "Hello World", content := "c", author_name := "Alice" } 5).2 :=
  C7_list_posts_published store1
    { title := "Hello World", content := "c", author_name := "Alice" } 5

/-- C8: submit_contact appends exactly one ContactEntry, whose status
defaults to "new", leaves the other collections unchanged, and returns the
generated id with the fixed acknowledgement status "received" — for every
payload, whether or not company is supplied. -/
theorem C8_submit_contact_received (s : Store) (p : ContactPayload) :
    submit_contact s p =
      ({ id := s.nextId, status := "received" },
       { s with
         contactmessages := s.contactmessages ++ [⟨s.nextId,
           { name := p.name, email := p.email, company := p.company,
             message := p.message, status := "new" }⟩],
         nextId := s.nextId + 1 }) := rfl

/-- C9: the diagnostic handler yields a response for every listing outcome:
an exception while listing collection names is reported inline as the error
text truncated to at most 50 characters (never propagated), and a successful
listing is capped to at most 10 collection names. -/
theorem C9_test_database_bounded (urlSet nameSet : Bool) :
    (∀ e : String,
      (test_database true urlSet nameSet (.error e)).database =
        "⚠️  Connected but Error: " ++ pyTake e 50 ∧
      (pyTake e 50).length ≤ 50 ∧
      (test_database true urlSet nameSet (.error e)).backend = "✅ Running") ∧
    (∀ names : List String,
      (test_database true urlSet nameSet (.ok names)).collections = names.take 10 ∧
      ((test_database true urlSet nameSet (.ok names)).collections).length ≤ 10) := by
  constructor
  · intro e
    refine ⟨rfl, ?_, rfl⟩
    show (e.data.take 50).length ≤ 50
    rw [List.length_take]
    omega
  · intro names
    refine ⟨rfl, ?_⟩
    show (names.take 10).length ≤ 10
    rw [List.length_take]
    omega
